import Mathlib

/-!
# Verification of the home-automation bot core (bot_core.py, api_server.py)

A shallow embedding of the device-grouping, caching, session and API layers of
the bot, with theorems settling the frozen claims about its specification.

Strings are modelled as `List Char` internally (Python `len`, slicing and
iteration are per code point, matching `List Char` on `String.data`).
Python's unspecified `set` iteration order for `WORDS_TO_REMOVE` is fixed to
the source listing order; every concrete result stated below is insensitive
to that order (the inputs used contain at most one of the words).
-/

namespace HomeBot

/-- Python `\s` / `str.isspace` for the ASCII whitespace used by this program. -/
def isPySpace (c : Char) : Bool :=
  c = ' ' || c = '\t' || c = '\n' || c = '\r' || c = '\x0b' || c = '\x0c'

/-- Python `str.lower` restricted to the Latin and Cyrillic alphabets that
appear in this program (ASCII A-Z and Cyrillic А-Я/Ё); other characters are
unchanged, as in Python. -/
def pyToLower (c : Char) : Char :=
  if 'A' ≤ c ∧ c ≤ 'Z' then Char.ofNat (c.toNat + 32)
  else if 'А' ≤ c ∧ c ≤ 'Я' then Char.ofNat (c.toNat + 32)
  else if c = 'Ё' then 'ё'
  else c

/-- Python regex `\w` (word character) for the alphabet used by this program:
ASCII alphanumerics, underscore, and Cyrillic letters. -/
def isWordChar (c : Char) : Bool :=
  c.isAlphanum || c = '_' ||
  ('а' ≤ c && c ≤ 'я') || ('А' ≤ c && c ≤ 'Я') || c = 'ё' || c = 'Ё'

/-- Lowercase a whole string with `pyToLower` (Python `str.lower`). -/
def pyLower (s : List Char) : List Char := s.map pyToLower

/-- `re.search` of a literal pattern: does `pat` occur as a contiguous
substring of `s`? Implemented as a scan over every suffix. -/
def containsSub (pat : List Char) : List Char → Bool
  | [] => pat.isPrefixOf []
  | c :: s => pat.isPrefixOf (c :: s) || containsSub pat s

/-- One position of the pattern `<lit>\s*<num>`: `lit` starts here, and after
any run of whitespace the digit string `num` follows.  (`\s*` followed by a
digit can only succeed by consuming the whole whitespace run, since whitespace
characters are not digits, so the greedy skip below is exact.) -/
def litWsNumAt (lit num s : List Char) : Bool :=
  lit.isPrefixOf s && num.isPrefixOf ((s.drop lit.length).dropWhile isPySpace)

/-- `re.search` for `<lit>\s*<num>`: some position matches. -/
def searchLitWsNum (lit num : List Char) : List Char → Bool
  | [] => litWsNumAt lit num []
  | c :: s => litWsNumAt lit num (c :: s) || searchLitWsNum lit num s

/-- Is the optional preceding character a word character (`false` at the
start of the string)? -/
def isWordCharOpt : Option Char → Bool
  | none => false
  | some c => isWordChar c

/-- One position of `\b<num>\b`: the digit string `num` occurs here with a
word boundary on both sides (digits are word characters, so the boundary
holds exactly when the neighbouring character is absent or not a word
character). `prev` is the character just before this position. -/
def boundedNumAt (num : List Char) (prev : Option Char) (s : List Char) : Bool :=
  num.isPrefixOf s && !isWordCharOpt prev &&
    (match s.drop num.length with
     | [] => true
     | c :: _ => !isWordChar c)

/-- `re.search` for `\b<num>\b`, scanning all positions while tracking the
previous character. -/
def searchBoundedNum (num : List Char) : Option Char → List Char → Bool
  | prev, [] => boundedNumAt num prev []
  | prev, c :: s => boundedNumAt num prev (c :: s) || searchBoundedNum num (some c) s

/-- The decimal digit string of the house index `i`. -/
def numChars (i : Nat) : List Char := (toString i).data

/-- The compiled pattern list for house `i` (bot_core.py `_compile_patterns`),
applied to the lowercased friendly name: `дом\s*i`, `домик\s*i`, `коттедж\s*i`,
`house\s*i`, `cottage\s*i`, `\bi\b`, `ti`, `kws-306wf ti`, and for house 1 the
extra literal `temperature humidity sensor`.  All patterns are compiled with
IGNORECASE and matched against the already-lowercased name, which for these
lowercase literal patterns coincides with the matching below. -/
def housePatternsMatch (i : Nat) (s : List Char) : Bool :=
  searchLitWsNum "дом".data (numChars i) s ||
  searchLitWsNum "домик".data (numChars i) s ||
  searchLitWsNum "коттедж".data (numChars i) s ||
  searchLitWsNum "house".data (numChars i) s ||
  searchLitWsNum "cottage".data (numChars i) s ||
  searchBoundedNum (numChars i) none s ||
  containsSub ('t' :: numChars i) s ||
  containsSub ("kws-306wf t".data ++ numChars i) s ||
  (i = 1 && containsSub "temperature humidity sensor".data s)

/-- The house-dictionary key for index `i` (`'Домик {i}'`). -/
def houseLabel (i : Nat) : String := "Домик " ++ toString i

/-- Iteration order of `HOUSE_PATTERNS` (dict insertion order): houses 1..10. -/
def HOUSE_ORDER : List Nat := List.range' 1 10

/-- bot_core.py `_assign_device_to_house`: lowercase the friendly name, return
the first house (in insertion order 1..10) one of whose patterns matches,
else the catch-all bucket `'Общие устройства'`. -/
def assignDeviceToHouse (friendlyName : String) : String :=
  let lower := pyLower friendlyName.data
  match HOUSE_ORDER.find? (fun i => housePatternsMatch i lower) with
  | some i => houseLabel i
  | none => "Общие устройства"

/-! ## Python values and the hub collaborator -/

/- The JSON-like Python values this program manipulates (enough for the
responses of the hub and of the API facade).  `PyFields` is the association
list of a dict, written as its own inductive so all recursions stay
structural. -/
mutual
inductive PyVal where
  | none
  | str (s : String)
  | dict (fields : PyFields)
inductive PyFields where
  | nil
  | cons (key : String) (val : PyVal) (rest : PyFields)
end

def PyFields.ofList : List (String × PyVal) → PyFields
  | [] => .nil
  | (k, v) :: rest => .cons k v (PyFields.ofList rest)

/- Python `==` on these values.  Values of different types (`dict` vs `str`,
`None` vs `str`) compare unequal.  Python's `dict == dict` is key-based and
order-insensitive; the program never compares two dicts, so the
order-sensitive structural comparison below is not exercised there. -/
mutual
def pyEq : PyVal → PyVal → Bool
  | PyVal.none, PyVal.none => true
  | PyVal.str a, PyVal.str b => a == b
  | PyVal.dict a, PyVal.dict b => pyFieldsEq a b
  | _, _ => false
def pyFieldsEq : PyFields → PyFields → Bool
  | PyFields.nil, PyFields.nil => true
  | PyFields.cons k v r, PyFields.cons k2 v2 r2 => k == k2 && pyEq v v2 && pyFieldsEq r r2
  | _, _ => false
end

/-- The parsed body of `GET states/<entity_id>` (fields the code reads;
`result.get` of a missing key yields `None`, modelled by `Option`). -/
structure HAEntityResp where
  state : Option String
  attributes : List (String × PyVal)
  lastChanged : Option String
  lastUpdated : Option String

/-- A raw device record from `GET states` as the grouping code reads it:
`entity_id`, `state`, and `attributes.get('friendly_name')`. -/
structure RawDevice where
  entityId : String
  friendlyName : Option String
  state : String
deriving DecidableEq

/-- The home-automation hub collaborator: the full-state endpoint (`none` on
transport failure), the single-entity endpoint (`none` on failure or falsy
response), and whether a `services/<domain>/turn_<action>` call returns a
non-`None` result. -/
structure HubModel where
  statesAll : Option (List RawDevice)
  stateOf : String → Option HAEntityResp
  serviceOk : String → String → Bool

def optStr : Option String → PyVal
  | Option.none => PyVal.none
  | some s => PyVal.str s

/-- `get_device_state` (api_server.py lines 224-235, identical to the
bot_core.py version): build the snapshot dict, or `None` on failure. -/
def getDeviceState (hub : HubModel) (entityId : String) : PyVal :=
  match hub.stateOf entityId with
  | Option.none => PyVal.none
  | some r =>
    PyVal.dict (PyFields.ofList
      [("entity_id", PyVal.str entityId), ("state", optStr r.state),
       ("attributes", PyVal.dict (PyFields.ofList r.attributes)),
       ("last_changed", optStr r.lastChanged),
       ("last_updated", optStr r.lastUpdated)])

/-! ## Grouping engine -/

def CONTROLLABLE_DOMAINS : List String :=
  ["light", "switch", "climate", "cover", "fan", "input_boolean"]

/-- `entity_id.split('.')[0]`: the domain prefix of an entity id. -/
def entityDomain (entityId : String) : String :=
  ⟨entityId.data.takeWhile (· ≠ '.')⟩

/-- `_is_controllable_device`: `entity_id.split('.')[0]` is a controllable
domain. -/
def isControllableDevice (entityId : String) : Bool :=
  CONTROLLABLE_DOMAINS.contains (entityDomain entityId)

/-- The keys of the `houses` dict of `manual_area_grouping`, in insertion
order: `'Домик 1'`..`'Домик 10'` then `'Общие устройства'`. -/
def housesAll : List String := HOUSE_ORDER.map houseLabel ++ ["Общие устройства"]

def deviceFriendly (d : RawDevice) : String := d.friendlyName.getD ""

/-- `manual_area_grouping` after the raw list is fetched: filter controllable
devices, assign each to its house by friendly name, keep non-empty buckets.
The source appends devices to the buckets in one pass over the list; bucket
contents here are the order-preserving filter, which is the same sequence. -/
def manualGroupDevices (allDevices : List RawDevice) : List (String × List RawDevice) :=
  let controllable := allDevices.filter (fun d => isControllableDevice d.entityId)
  (housesAll.map (fun h =>
      (h, controllable.filter (fun d => assignDeviceToHouse (deviceFriendly d) == h)))).filter
    (fun p => !p.2.isEmpty)

/-! ## Cache layer -/

/-- The mutable cache fields of `OptimizedHomeBot`: the grouped-result cache
`devices_cache`, its timestamp `_cache_timestamp['all']`, the raw device list
`_all_devices`, and the `lru_cache` of `get_all_areas_list`. -/
structure BotState where
  devicesCache : List (String × List RawDevice)
  cacheTimestamp : Option ℤ
  allDevices : Option (List RawDevice)
  areasListCache : Option (List String)
deriving DecidableEq

/-- The state set up by `init`. -/
def initBotState : BotState :=
  { devicesCache := [], cacheTimestamp := Option.none
    allDevices := Option.none, areasListCache := Option.none }

def CACHE_TTL : ℤ := 2

/-- `get_all_devices`: fetch the full state only when `_all_devices` is
`None`, storing `home_assistant('states') or []` (the empty list on
failure).  The third component counts hub full-state fetches performed. -/
def getAllDevices (hub : HubModel) (st : BotState) : List RawDevice × BotState × Nat :=
  match st.allDevices with
  | some ds => (ds, st, 0)
  | Option.none =>
    let ds := hub.statesAll.getD []
    (ds, { st with allDevices := some ds }, 1)

/-- `manual_area_grouping(force_refresh)`: on force, discard the raw list
first; then read (possibly fetching) and group. -/
def manualAreaGrouping (hub : HubModel) (force : Bool) (st : BotState) :
    List (String × List RawDevice) × BotState × Nat :=
  let st1 := if force then { st with allDevices := Option.none } else st
  let (ds, st2, n) := getAllDevices hub st1
  (manualGroupDevices ds, st2, n)

/-- `load_areas_with_devices(force_refresh)`: the TTL-checked grouped cache.
The validity check requires the key `'all'` to be present in
`devices_cache` — whose keys are house names — exactly as in the source. -/
def loadAreasWithDevices (hub : HubModel) (force : Bool) (now : ℤ) (st : BotState) :
    List (String × List RawDevice) × BotState × Nat :=
  let cacheValid :=
    !force &&
    (match st.cacheTimestamp with
     | some t => decide (now - t < CACHE_TTL)
     | Option.none => false) &&
    st.devicesCache.any (fun p => p.1 == "all")
  if cacheValid then (st.devicesCache, st, 0)
  else
    let (g, st2, n) := manualAreaGrouping hub force st
    (g, { st2 with devicesCache := g, cacheTimestamp := some now }, n)

/-- `_clear_cache`: unconditionally discard the grouped cache, timestamps,
raw device list, and the memoized area-name list. -/
def clearCache (_st : BotState) : BotState :=
  { devicesCache := [], cacheTimestamp := Option.none
    allDevices := Option.none, areasListCache := Option.none }

/-- `get_area_devices(area_name, force_refresh)`: on force, clear all cache
fields (the same four assignments as `_clear_cache`), then load and look up
the area (`.get(area_name, [])`). -/
def getAreaDevices (hub : HubModel) (now : ℤ) (areaName : String) (force : Bool)
    (st : BotState) : List RawDevice × BotState × Nat :=
  let st1 := if force then clearCache st else st
  let (areas, st2, n) := loadAreasWithDevices hub force now st1
  ((areas.lookup areaName).getD [], st2, n)

/-- `int(re.search(r'\d+', x).group())`: the first maximal digit run of the
name (the names this is applied to always contain one; `0` as the default
keeps the model total). -/
def extractNum (s : List Char) : Nat :=
  ((s.dropWhile (fun c => !c.isDigit)).takeWhile (fun c => c.isDigit)).foldl
    (fun acc c => acc * 10 + (c.toNat - '0'.toNat)) 0

/-- Stable insertion of a name into a list sorted by `extractNum` (Python
`sorted` with that key is a stable ascending sort). -/
def insertByNum (a : String) : List String → List String
  | [] => [a]
  | b :: rest =>
    if extractNum a.data ≤ extractNum b.data then a :: b :: rest
    else b :: insertByNum a rest

def sortByNum : List String → List String
  | [] => []
  | a :: rest => insertByNum a (sortByNum rest)

/-- `get_all_areas_list` with its `lru_cache`: house names (containing
`'Домик'`) sorted by their number, then the rest, memoized until
`cache_clear`. -/
def getAllAreasList (hub : HubModel) (now : ℤ) (st : BotState) :
    List String × BotState × Nat :=
  match st.areasListCache with
  | some l => (l, st, 0)
  | Option.none =>
    let (areas, st2, n) := loadAreasWithDevices hub false now st
    let names := areas.map Prod.fst
    let houses := sortByNum (names.filter (fun a => containsSub "Домик".data a.data))
    let others := names.filter (fun a => !containsSub "Домик".data a.data)
    let result := houses ++ others
    (result, { st2 with areasListCache := some result }, n)

/-! ## Short-name derivation -/

/-- `WORDS_TO_REMOVE` in source listing order (the Python `set` iterates in an
unspecified but fixed per-run order; all results below are insensitive to
it). -/
def WORDS_TO_REMOVE : List String :=
  ["свет", "light", "switch", "выключатель", "розетка", "лампа",
   "lamp", "управление", "control", "temperature humidity sensor"]

def replaceAllGo (pat : List Char) : Nat → List Char → List Char
  | 0, l => l
  | _ + 1, [] => []
  | fuel + 1, c :: s =>
    if !pat.isEmpty && pat.isPrefixOf (c :: s) then
      replaceAllGo pat fuel ((c :: s).drop pat.length)
    else c :: replaceAllGo pat fuel s

/-- Python `str.replace(pat, '')`: remove all non-overlapping occurrences of
`pat`, scanning left to right (case-sensitive).  The fuel starts at the
string length and every step consumes at least one character, so it never
runs out; it only makes the recursion structural so that terms reduce
definitionally. -/
def replaceAll (pat s : List Char) : List Char := replaceAllGo pat s.length s

/-- Case-insensitive prefix test (for the IGNORECASE group-label removal). -/
def ciPrefixOf (pat s : List Char) : Bool :=
  pyLower (s.take pat.length) == pyLower pat

def removeAllCIGo (pat : List Char) : Nat → List Char → List Char
  | 0, l => l
  | _ + 1, [] => []
  | fuel + 1, c :: s =>
    if !pat.isEmpty && ciPrefixOf pat (c :: s) then
      removeAllCIGo pat fuel ((c :: s).drop pat.length)
    else c :: removeAllCIGo pat fuel s

/-- `re.sub(re.escape(pat), '', s, flags=re.IGNORECASE)`: remove all
non-overlapping case-insensitive occurrences of the literal `pat`, left to
right.  For an empty `pat` the substitution leaves `s` unchanged, exactly as
`re.sub('', '', s) == s` in Python. -/
def removeAllCI (pat s : List Char) : List Char := removeAllCIGo pat s.length s

/-- `re.sub(r'\s+', ' ', s)`: collapse each maximal whitespace run to a
single space. -/
def collapseWs : List Char → List Char
  | [] => []
  | [c] => if isPySpace c then [' '] else [c]
  | a :: b :: s =>
    if isPySpace a && isPySpace b then collapseWs (b :: s)
    else (if isPySpace a then ' ' else a) :: collapseWs (b :: s)

/-- Python `str.strip()`: drop leading and trailing whitespace. -/
def pyStrip (s : List Char) : List Char :=
  ((s.dropWhile isPySpace).reverse.dropWhile isPySpace).reverse

/-- The cleaning pipeline of `shorten_name` before truncation: remove the
group label (case-insensitive), remove the stop words (case-sensitive
`str.replace`), then normalize whitespace. -/
def cleanName (name : List Char) (areaName : String) : List Char :=
  let s1 := removeAllCI areaName.data name
  let s2 := WORDS_TO_REMOVE.foldl (fun acc w => replaceAll w.data acc) s1
  pyStrip (collapseWs s2)

/-- The return expression of `shorten_name`:
`clean_name[:12] + "..." if len(clean_name) > 12 else clean_name or "Устройство"`. -/
def truncateName (cn : List Char) : String :=
  if cn.length > 12 then ⟨cn.take 12 ++ "...".data⟩
  else if cn.isEmpty then "Устройство"
  else ⟨cn⟩

/-- bot_core.py `shorten_name`: clean, then truncate to 12 characters with an
ellipsis marker, falling back to `'Устройство'` when the cleaned name is
empty. -/
def shortenName (name : String) (areaName : String) : String :=
  truncateName (cleanName name.data areaName)

/-! ## API facade -/

/-- Response shapes of `POST /api/device/control` (api_server.py 91-146). -/
inductive ControlResponse where
  | invalidData
  | invalidAction
  | ok (entityId : String) (actionPerformed : String) (currentState : PyVal)
  | failed

/-- One `POST services/<domain>/turn_<action>` hub call issued by
`control_device`. -/
structure IssuedCall where
  domain : String
  service : String
  entityId : String
deriving DecidableEq

/-- bot_core.py `control_device`: issue `services/<domain>/turn_<action>` for
the entity's domain; success iff the hub response is not `None`. -/
def controlDevice (hub : HubModel) (entityId action : String) : Bool × IssuedCall :=
  (hub.serviceOk entityId action, ⟨entityDomain entityId, "turn_" ++ action, entityId⟩)

/-- api_server.py `control_device` endpoint.  The body is `none` when the
JSON is missing or lacks `entity_id`/`action`.  For `toggle`, the source
compares `current_state` — the whole snapshot dict returned by
`get_device_state` (or `None`) — to the string `'on'` (line 116).  The cache
clear and the 0.3s settle delay before the re-read are elided (they do not
affect the fields modelled).  The second component lists the hub control
calls issued. -/
def controlDeviceEndpoint (hub : HubModel) (body : Option (String × String)) :
    ControlResponse × List IssuedCall :=
  match body with
  | Option.none => (.invalidData, [])
  | some (entityId, action) =>
    if !(action == "on" || action == "off" || action == "toggle") then (.invalidAction, [])
    else
      let action2 :=
        if action == "toggle" then
          if pyEq (getDeviceState hub entityId) (PyVal.str "on") then "off" else "on"
        else action
      let (success, call) := controlDevice hub entityId action2
      if success then
        (.ok entityId action2 (getDeviceState hub entityId), [call])
      else (.failed, [call])

/-- The parsed body of `POST /api/batch/devices`. -/
inductive BatchRequest where
  | noJson
  | missingIds
  | notAList
  | ids (l : List String)

/-- Response shapes of the batch endpoint: the two 400 validation errors
(`'Неверные данные'` and `'Слишком много устройств (максимум 20)'`) and the
success payload. -/
inductive BatchResponse where
  | invalidData
  | tooMany
  | ok (results : List (String × PyVal))

/-- api_server.py `batch_get_devices`: missing body or ids → 400; a non-list
or more than 20 ids → 400, before any hub call; otherwise one
`states/<id>` snapshot per id.  Second component: hub calls performed. -/
def batchGetDevices (hub : HubModel) (req : BatchRequest) : BatchResponse × Nat :=
  match req with
  | .noJson => (.invalidData, 0)
  | .missingIds => (.invalidData, 0)
  | .notAList => (.tooMany, 0)
  | .ids l =>
    if l.length > 20 then (.tooMany, 0)
    else (.ok (l.map (fun eid => (eid, getDeviceState hub eid))), l.length)

/-- The `stats` object built by `get_area_data_for_api` (bot_core.py
640-644): `(total, on, off)` where `total` is the number of device records
(`devices` holds one dict per record) and on/off count the records whose
state is exactly `'on'` / `'off'`. -/
def apiStats (devicesData : List RawDevice) : Nat × Nat × Nat :=
  (devicesData.length,
   (devicesData.filter (fun d => d.state == "on")).length,
   (devicesData.filter (fun d => d.state == "off")).length)

/-- The parts of the `GET /api/area/<name>` payload the claims are about.
The sensor summary is elided (it does not affect the stats). -/
structure ApiAreaData where
  areaName : String
  deviceShortNames : List String
  stats : Nat × Nat × Nat

/-- bot_core.py `get_area_data_for_api`: force-refresh the area's devices,
derive the short names, and compute the stats. -/
def getAreaDataForApi (hub : HubModel) (now : ℤ) (areaName : String) (st : BotState) :
    ApiAreaData × BotState :=
  let (devicesData, st2, _) := getAreaDevices hub now areaName true st
  ({ areaName := areaName
     deviceShortNames := devicesData.map (fun d => shortenName (deviceFriendly d) areaName)
     stats := apiStats devicesData }, st2)

/-! ## Session state machine -/

/-- Per-user session state: `{'state': 'main'}` or
`{'state': 'house', 'data': area}`. -/
inductive UserState where
  | main
  | house (areaName : String)
deriving DecidableEq

/-- The outbound messages, by identity (markup/formatting elided). -/
inductive BotReply where
  | startSummary (houseCount totalDevices : Nat)
  | allHousesStatus (totalOn totalDevices : Nat)
  | houseStatusSummary (areaName : String) (total onCount : Nat)
  | noDevicesInArea (areaName : String)
  | pickHouseFromMenu
  | backToMain
  | kwsData (areaName : String) (hasSensorMap : Bool)
  | areaStatus (areaName : String) (total onCount : Nat)
  | deviceControlled (shortName : String) (action : String)
  | deviceControlFailed (shortName : String)
  | deviceNotFound (shortName : String)
  | unknownCommand
deriving DecidableEq

/-- The chat-facing mutable state: `user_states` plus the cache fields. -/
structure ChatState where
  userStates : List (Nat × UserState)
  bot : BotState
deriving DecidableEq

/-- `set_user_state`: dict assignment on `user_states`. -/
def setUserState (states : List (Nat × UserState)) (chatId : Nat) (s : UserState) :
    List (Nat × UserState) :=
  match states with
  | [] => [(chatId, s)]
  | (c, u) :: rest =>
    if c = chatId then (c, s) :: rest else (c, u) :: setUserState rest chatId s

/-- `show_all_houses_status`: clear every cache field, force-reload, list the
areas, and report the on/total tallies. -/
def showAllHousesStatus (hub : HubModel) (now : ℤ) (st : ChatState) :
    ChatState × List BotReply :=
  let bot1 := clearCache st.bot
  let (areas, bot2, _) := loadAreasWithDevices hub true now bot1
  let (areasList, bot3, _) := getAllAreasList hub now bot2
  let devsOf := fun a => (areas.lookup a).getD ([] : List RawDevice)
  let total := (areasList.map (fun a => (devsOf a).length)).sum
  let totalOn :=
    (areasList.map (fun a => ((devsOf a).filter (fun d => d.state == "on")).length)).sum
  (⟨st.userStates, bot3⟩, [.allHousesStatus totalOn total])

/-- `show_area_status`: forced refresh of the area, then the status report
(or a no-devices message). -/
def showAreaStatus (hub : HubModel) (now : ℤ) (areaName : String) (st : ChatState) :
    ChatState × List BotReply :=
  let (devices, bot2, _) := getAreaDevices hub now areaName true st.bot
  if devices.isEmpty then (⟨st.userStates, bot2⟩, [.noDevicesInArea areaName])
  else
    (⟨st.userStates, bot2⟩,
     [.areaStatus areaName devices.length
        ((devices.filter (fun d => d.state == "on")).length)])

/-- `show_kws_data`: areas other than `'Домик 1'` have no `SENSORS_MAP` entry,
so `get_kws_sensors_data` returns `None` and the 'data unavailable' text is
sent.  The numeric aggregation for `'Домик 1'` is elided (no claim needs
it). -/
def showKwsData (areaName : String) (st : ChatState) : ChatState × List BotReply :=
  (st, [.kwsData areaName (areaName == "Домик 1")])

/-- `self.device_name_pattern.sub('', text)` for the pattern
`вкл|выкл` (IGNORECASE): at each position the alternation tries `вкл` first,
then `выкл`.  Fuel-structured like `replaceAllGo`. -/
def removeOnOffTokensGo : Nat → List Char → List Char
  | 0, l => l
  | _ + 1, [] => []
  | fuel + 1, c :: s =>
    if ciPrefixOf "вкл".data (c :: s) then removeOnOffTokensGo fuel ((c :: s).drop 3)
    else if ciPrefixOf "выкл".data (c :: s) then removeOnOffTokensGo fuel ((c :: s).drop 4)
    else c :: removeOnOffTokensGo fuel s

def removeOnOffTokens (s : List Char) : List Char := removeOnOffTokensGo s.length s

/-- `control_single_device`: derive the target short name from the text, find
the first device of the area whose derived short name matches exactly, and
issue the control action (clearing the cache on success). -/
def controlSingleDevice (hub : HubModel) (now : ℤ) (text : String) (areaName : String)
    (st : ChatState) : ChatState × List BotReply :=
  let action := if containsSub "вкл".data (pyLower text.data) then "on" else "off"
  let deviceShortName : String := ⟨pyStrip (removeOnOffTokens text.data)⟩
  let (devices, bot2, _) := getAreaDevices hub now areaName false st.bot
  match devices.find? (fun d => shortenName (deviceFriendly d) areaName == deviceShortName) with
  | some d =>
    let (success, _call) := controlDevice hub d.entityId action
    if success then
      (⟨st.userStates, clearCache bot2⟩,
       [.deviceControlled (shortenName (deviceFriendly d) areaName) action])
    else (⟨st.userStates, bot2⟩, [.deviceControlFailed (shortenName (deviceFriendly d) areaName)])
  | Option.none => (⟨st.userStates, bot2⟩, [.deviceNotFound deviceShortName])

/-- `handle_house_commands`: the submenu dispatcher. -/
def handleHouseCommands (hub : HubModel) (now : ℤ) (chatId : Nat) (text : String)
    (areaName : String) (st : ChatState) : ChatState × List BotReply :=
  let textLower : String := ⟨pyLower text.data⟩
  if textLower == "назад" then
    (⟨setUserState st.userStates chatId .main, st.bot⟩, [.backToMain])
  else if textLower == "данные" then showKwsData areaName st
  else if textLower == "статус" then showAreaStatus hub now areaName st
  else if containsSub "вкл".data textLower.data || containsSub "выкл".data textLower.data then
    controlSingleDevice hub now text areaName st
  else (st, [.unknownCommand])

/-- bot_core.py `handle_message`.  In the source the guard
`if text_lower in ['/start', 'обновить', 'назад', 'статус всех']:` of line 394
sits at the end of the preceding comment (the line was joined onto it), so
the state-reset block below it executes unconditionally for every message,
and the `user_state['state'] == 'house'` branch is unreachable.  The model
translates the file as written. -/
def handleMessage (hub : HubModel) (now : ℤ) (chatId : Nat) (text : String)
    (st : ChatState) : ChatState × List BotReply :=
  let textLower : String := ⟨pyLower text.data⟩
  let _userStateRead := (st.userStates.lookup chatId).getD UserState.main
  let states1 := setUserState st.userStates chatId .main
  let userState : UserState := .main
  let bot1 := if textLower == "обновить" then clearCache st.bot else st.bot
  if textLower == "/start" || textLower == "обновить" then
    let (areas, bot2, _) := loadAreasWithDevices hub true now bot1
    let houseCount := (areas.filter (fun p => containsSub "Домик".data p.1.data)).length
    let total := (areas.map (fun p => p.2.length)).sum
    (⟨states1, bot2⟩, [.startSummary houseCount total])
  else if textLower == "статус всех" then
    showAllHousesStatus hub now ⟨states1, bot1⟩
  else
    match userState with
    | .main =>
      if containsSub "Домик".data text.data || containsSub "Общие".data text.data then
        let (areas, bot2, _) := loadAreasWithDevices hub false now bot1
        let devices := (areas.lookup text).getD ([] : List RawDevice)
        if !devices.isEmpty then
          let onCount := (devices.filter (fun d => d.state == "on")).length
          (⟨setUserState states1 chatId (.house text), bot2⟩,
           [.houseStatusSummary text devices.length onCount])
        else (⟨states1, bot2⟩, [.noDevicesInArea text])
      else (⟨states1, bot1⟩, [.pickHouseFromMenu])
    | .house areaName =>
      handleHouseCommands hub now chatId text areaName ⟨states1, bot1⟩

/-! ## Polling loop -/

/-- The loop-carried state of `run_telegram_bot`: the consecutive-failure
counter, the cache fields, and a ghost count of `_clear_cache` calls
(instrumentation only; not a source variable). -/
structure PollState where
  errorCount : Nat
  bot : BotState
  invalidations : Nat
deriving DecidableEq

/-- One iteration of the polling loop body (bot_core.py 736-756): `ok` is
whether `getUpdates` returned a response with `ok` set.  Message processing
in the success branch is elided (it is orthogonal to the failure counter and
touches no field read here). -/
def pollIteration (s : PollState) (ok : Bool) : PollState :=
  if ok then { s with errorCount := 0 }
  else if s.errorCount + 1 > 3 then
    { errorCount := 0, bot := clearCache s.bot, invalidations := s.invalidations + 1 }
  else { s with errorCount := s.errorCount + 1 }

/-- Run the polling loop over a sequence of poll outcomes. -/
def pollRun (s : PollState) (oks : List Bool) : PollState := oks.foldl pollIteration s

/-! ## Concrete collaborators for the closed theorems -/

/-- A small concrete hub used by the closed theorems below: one controllable
light in the full-state list, a single-entity endpoint reporting
`light.lamp1` as `'on'`, all service calls succeeding. -/
def sampleHub : HubModel :=
  { statesAll := some [⟨"light.kitchen", some "Кухня свет", "on"⟩]
    stateOf := fun eid =>
      if eid == "light.lamp1" then some ⟨some "on", [], Option.none, Option.none⟩
      else Option.none
    serviceOk := fun _ _ => true }

/-- A hub whose full-state endpoint fails (transport error, parsed as
`None`). -/
def failingHub : HubModel :=
  { statesAll := Option.none
    stateOf := fun _ => Option.none
    serviceOk := fun _ _ => false }

/-! ## Claim theorems -/

/-- Claim C10: in the per-area API response the stats satisfy
`on + off ≤ total`; a device whose state is neither `'on'` nor `'off'` is
counted in the total but in neither tally, so the total is exactly
`on + off + (number of neither-state devices)`. -/
theorem c10_stats_invariant (devicesData : List RawDevice) :
    (apiStats devicesData).2.1 + (apiStats devicesData).2.2 ≤ (apiStats devicesData).1 ∧
    (apiStats devicesData).1 =
      (apiStats devicesData).2.1 + (apiStats devicesData).2.2 +
        (devicesData.filter (fun d => !(d.state == "on") && !(d.state == "off"))).length := by
  have h : ∀ l : List RawDevice,
      l.length = (l.filter (fun d => d.state == "on")).length +
        (l.filter (fun d => d.state == "off")).length +
        (l.filter (fun d => !(d.state == "on") && !(d.state == "off"))).length := by
    intro l
    induction l with
    | nil => simp
    | cons d rest ih =>
      by_cases h1 : d.state = "on"
      · simp [List.filter_cons, h1, ih]
        omega
      · by_cases h2 : d.state = "off"
        · simp [List.filter_cons, h1, h2, ih]
          omega
        · simp [List.filter_cons, h1, h2, ih]
          omega
  have h0 := h devicesData
  refine ⟨?_, ?_⟩ <;> simp only [apiStats] <;> omega

/-- Claim C1: the claim says that in state IN_GROUP(g) the message "статус"
keeps the session in IN_GROUP(g) and emits a forced-refresh status report,
and "данные" keeps it and emits the sensor summary.  The code violates this:
the guard of the state-reset block (bot_core.py line 394) was folded into a
comment, so every message unconditionally resets the session to ROOT, and
both messages produce the root-menu prompt `'Выбери домик из меню'`.  This
theorem evaluates the handler at the failing inputs. -/
theorem c1_house_status_resets_session :
    ((handleMessage sampleHub 0 7 "статус"
        ⟨[(7, UserState.house "Домик 1")], initBotState⟩).1.userStates
       = [(7, UserState.main)] ∧
     (handleMessage sampleHub 0 7 "статус"
        ⟨[(7, UserState.house "Домик 1")], initBotState⟩).2
       = [BotReply.pickHouseFromMenu]) ∧
    ((handleMessage sampleHub 0 7 "данные"
        ⟨[(7, UserState.house "Домик 1")], initBotState⟩).1.userStates
       = [(7, UserState.main)] ∧
     (handleMessage sampleHub 0 7 "данные"
        ⟨[(7, UserState.house "Домик 1")], initBotState⟩).2
       = [BotReply.pickHouseFromMenu]) := by decide

/-- Claim C2: the claim says a toggle on an entity observed `'on'` issues an
`'off'` command.  The code violates this: api_server.py line 116 compares
`current_state` — the whole snapshot dict returned by `get_device_state` —
to the string `'on'`, which is `False` in Python for every observed state,
so toggle always issues `'on'`.  Here the hub reports `light.lamp1` as
`'on'`, yet the endpoint issues `turn_on` and reports
`action_performed='on'` (the reported action does equal the action
issued, which is the part of the claim that holds). -/
theorem c2_toggle_on_device_issues_on :
    ((sampleHub.stateOf "light.lamp1").map (fun r => r.state) = some (some "on")) ∧
    (controlDeviceEndpoint sampleHub (some ("light.lamp1", "toggle"))).2
      = [⟨"light", "turn_on", "light.lamp1"⟩] ∧
    (controlDeviceEndpoint sampleHub (some ("light.lamp1", "toggle"))).1
      = ControlResponse.ok "light.lamp1" "on" (getDeviceState sampleHub "light.lamp1") :=
  ⟨by decide, by decide, rfl⟩

/-- Claim C7: `invalidate()` (`_clear_cache`) unconditionally discards the
grouped entry, its timestamp, the raw device list and the memoized area-name
list, so the next non-forced read always performs a fresh hub fetch,
regardless of the elapsed time. -/
theorem c7_invalidate_forces_fetch (st : BotState) (hub : HubModel) (now : ℤ) :
    clearCache st = { devicesCache := [], cacheTimestamp := Option.none,
                      allDevices := Option.none, areasListCache := Option.none } ∧
    (loadAreasWithDevices hub false now (clearCache st)).2.2 = 1 := by
  exact ⟨rfl, rfl⟩

/-- Claim C4 counterexample: starting from a zero failure counter, exactly
three consecutive polling failures leave the counter at 3 and perform no
cache invalidation, contradicting the claim that three failures trigger one
invalidation and reset the counter; the fourth failure is what triggers it
(`error_count > 3` in bot_core.py line 753). -/
theorem c4_counterexample :
    pollRun ⟨0, initBotState, 0⟩ [false, false, false] = ⟨3, initBotState, 0⟩ ∧
    pollRun ⟨0, initBotState, 0⟩ [false, false, false, false]
      = ⟨0, clearCache initBotState, 1⟩ := by decide

/-- Claim C4 (amended): starting from a zero counter, `k ≤ 3` consecutive
failures leave the counter at `k` with no invalidation; exactly four
consecutive failures trigger one full cache invalidation and reset the
counter to zero; a successful poll also resets the counter. -/
theorem c4_amended_four_failures (s : PollState) (h : s.errorCount = 0) :
    (∀ k, k ≤ 3 → pollRun s (List.replicate k false) = { s with errorCount := k }) ∧
    pollRun s (List.replicate 4 false)
      = { errorCount := 0, bot := clearCache s.bot, invalidations := s.invalidations + 1 } ∧
    (∀ t : PollState, pollIteration t true = { t with errorCount := 0 }) := by
  obtain ⟨ec, bot, inv⟩ := s
  obtain rfl : ec = 0 := h
  refine ⟨?_, rfl, fun t => rfl⟩
  intro k hk
  interval_cases k <;> rfl

/-- Witness for C4 (amended) at the concrete initial state. -/
theorem c4_amended_four_failures_witness :
    (⟨0, initBotState, 0⟩ : PollState).errorCount = 0 ∧
    pollRun ⟨0, initBotState, 0⟩ (List.replicate 3 false) = ⟨3, initBotState, 0⟩ ∧
    pollRun ⟨0, initBotState, 0⟩ (List.replicate 4 false)
      = ⟨0, clearCache initBotState, 1⟩ :=
  ⟨rfl, (c4_amended_four_failures ⟨0, initBotState, 0⟩ rfl).1 3 (by decide),
   (c4_amended_four_failures ⟨0, initBotState, 0⟩ rfl).2.1⟩

/-- Claim C8: a batch request with more than 20 entity ids is rejected with a
validation error and zero hub calls; a request with at most 20 ids performs
one `states/<id>` call per id and returns the per-id snapshot (or `None` for
a failed id). -/
theorem c8_batch_size_cap (hub : HubModel) (l : List String) :
    (l.length > 20 → batchGetDevices hub (BatchRequest.ids l) = (BatchResponse.tooMany, 0)) ∧
    (l.length ≤ 20 → batchGetDevices hub (BatchRequest.ids l) =
      (BatchResponse.ok (l.map (fun eid => (eid, getDeviceState hub eid))), l.length)) := by
  refine ⟨fun h => ?_, fun h => ?_⟩
  · simp only [batchGetDevices]
    rw [if_pos h]
  · simp only [batchGetDevices]
    rw [if_neg (by omega)]

/-- Witness for C8: a 21-id request is rejected with zero hub calls; a
one-id request returns its snapshot with one hub call. -/
theorem c8_batch_size_cap_witness :
    (((List.range 21).map (fun n => toString n)).length > 20 ∧
     batchGetDevices sampleHub (BatchRequest.ids ((List.range 21).map (fun n => toString n)))
       = (BatchResponse.tooMany, 0)) ∧
    ((["light.lamp1"] : List String).length ≤ 20 ∧
     batchGetDevices sampleHub (BatchRequest.ids ["light.lamp1"])
       = (BatchResponse.ok [("light.lamp1", getDeviceState sampleHub "light.lamp1")], 1)) :=
  ⟨⟨by decide, (c8_batch_size_cap sampleHub _).1 (by decide)⟩,
   ⟨by decide, (c8_batch_size_cap sampleHub ["light.lamp1"]).2 (by decide)⟩⟩

/-! ## Helper lemmas shared by the cache-layer theorems -/

/-- Grouping the empty raw list leaves every bucket empty, so the grouped
mapping is empty. -/
theorem manualGroupDevices_nil : manualGroupDevices [] = [] := rfl

/-- A non-forced read from the pristine initial state: one hub fetch, the
raw list and grouped payload stored, timestamp set. -/
theorem loadAreas_init (hub : HubModel) (t0 : ℤ) :
    loadAreasWithDevices hub false t0 initBotState =
      (manualGroupDevices (hub.statesAll.getD []),
       { devicesCache := manualGroupDevices (hub.statesAll.getD [])
         cacheTimestamp := some t0
         allDevices := some (hub.statesAll.getD [])
         areasListCache := Option.none }, 1) := rfl

/-- A non-forced read never fetches from the hub while the raw device list
is cached, whatever the stored entry and elapsed time. -/
theorem loadAreas_no_fetch_of_raw_cached (hub : HubModel) (now : ℤ) (st : BotState)
    (ds : List RawDevice) (h : st.allDevices = some ds) :
    (loadAreasWithDevices hub false now st).2.2 = 0 := by
  obtain ⟨dc, cts, ad, alc⟩ := st
  obtain rfl : ad = some ds := h
  simp only [loadAreasWithDevices, manualAreaGrouping, getAllDevices]
  split <;> rfl

/-! ## Cache-layer claim theorems -/

/-- Claim C9: when the hub full-state fetch fails, the empty result is
stored as the cached raw device list; afterwards every non-forced read —
at any later time, even with the hub recovered — regroups that stored empty
list into an empty mapping with zero hub fetches, until a force-refresh or
an invalidation discards the raw list and causes a real fetch. -/
theorem c9_failed_fetch_cached_empty (hub hub2 : HubModel) (st : BotState) (now now2 : ℤ)
    (hfail : hub.statesAll = Option.none) (hraw : st.allDevices = Option.none)
    (hts : st.cacheTimestamp = Option.none) :
    loadAreasWithDevices hub false now st
      = ([], { st with devicesCache := [], cacheTimestamp := some now,
                       allDevices := some [] }, 1) ∧
    (∀ st1 : BotState, st1.allDevices = some [] → st1.devicesCache = [] →
      loadAreasWithDevices hub2 false now2 st1
        = ([], { st1 with devicesCache := [], cacheTimestamp := some now2 }, 0)) ∧
    (∀ st1 : BotState, st1.allDevices = some [] →
      (loadAreasWithDevices hub2 true now2 st1).2.2 = 1) ∧
    (∀ st1 : BotState, (loadAreasWithDevices hub2 false now2 (clearCache st1)).2.2 = 1) := by
  refine ⟨?_, ?_, ?_, fun st1 => rfl⟩
  · obtain ⟨dc, cts, ad, alc⟩ := st
    obtain rfl : ad = Option.none := hraw
    obtain rfl : cts = Option.none := hts
    simp [loadAreasWithDevices, manualAreaGrouping, getAllDevices, hfail,
          manualGroupDevices_nil]
  · intro st1 h1 h2
    obtain ⟨dc1, cts1, ad1, alc1⟩ := st1
    obtain rfl : ad1 = some [] := h1
    obtain rfl : dc1 = [] := h2
    simp [loadAreasWithDevices, manualAreaGrouping, getAllDevices,
          manualGroupDevices_nil]
  · intro st1 h1
    obtain ⟨dc1, cts1, ad1, alc1⟩ := st1
    obtain rfl : ad1 = some [] := h1
    rfl

/-- Witness for C9 at a concrete failing hub and the initial state. -/
theorem c9_failed_fetch_cached_empty_witness :
    failingHub.statesAll = Option.none ∧
    initBotState.allDevices = Option.none ∧
    initBotState.cacheTimestamp = Option.none ∧
    (loadAreasWithDevices failingHub false 0 initBotState
       = ([], { initBotState with
                  devicesCache := []
                  cacheTimestamp := some 0
                  allDevices := some [] }, 1) ∧
     (∀ st1 : BotState, st1.allDevices = some [] → st1.devicesCache = [] →
       loadAreasWithDevices sampleHub false 5 st1
         = ([], { st1 with devicesCache := [], cacheTimestamp := some 5 }, 0)) ∧
     (∀ st1 : BotState, st1.allDevices = some [] →
       (loadAreasWithDevices sampleHub true 5 st1).2.2 = 1) ∧
     (∀ st1 : BotState, (loadAreasWithDevices sampleHub false 5 (clearCache st1)).2.2 = 1)) :=
  ⟨rfl, rfl, rfl,
   c9_failed_fetch_cached_empty failingHub sampleHub initBotState 0 5 rfl rfl rfl⟩

/-- Claim C3 counterexample: a non-forced read at time 0 stores an entry;
at time 5 the entry's age (5) is at least the TTL (2), yet the next
non-forced read performs zero underlying hub fetches (the raw device list is
still cached), contradicting the claim that a read finding an expired entry
performs a new underlying hub fetch. -/
theorem c3_counterexample :
    (loadAreasWithDevices sampleHub false 0 initBotState).2.1.cacheTimestamp = some 0 ∧
    (5 : ℤ) - 0 ≥ CACHE_TTL ∧
    (loadAreasWithDevices sampleHub false 5
       (loadAreasWithDevices sampleHub false 0 initBotState).2.1).2.2 = 0 := by decide

/-- Claim C3 (amended): from the initial empty state, two non-forced reads
within the TTL window perform exactly one underlying hub fetch (the first
one); a forced read always performs a hub fetch and stores a fresh entry
whose payload it returns; a non-forced read finding no stored entry or an
expired entry re-runs grouping and stores a fresh entry, but performs an
underlying hub fetch exactly when the raw device-list cache is empty. -/
theorem c3_amended_cache_read (hub : HubModel) (st : BotState) (t0 t1 : ℤ) :
    (t1 - t0 < CACHE_TTL →
      (loadAreasWithDevices hub false t0 initBotState).2.2 = 1 ∧
      (loadAreasWithDevices hub false t1
         (loadAreasWithDevices hub false t0 initBotState).2.1).2.2 = 0) ∧
    ((loadAreasWithDevices hub true t0 st).2.2 = 1 ∧
     (loadAreasWithDevices hub true t0 st).2.1.cacheTimestamp = some t0 ∧
     (loadAreasWithDevices hub true t0 st).2.1.devicesCache
       = (loadAreasWithDevices hub true t0 st).1) ∧
    ((st.cacheTimestamp = Option.none ∨
        ∃ t, st.cacheTimestamp = some t ∧ t0 - t ≥ CACHE_TTL) →
      (loadAreasWithDevices hub false t0 st).2.1.cacheTimestamp = some t0 ∧
      (loadAreasWithDevices hub false t0 st).2.2
        = (if st.allDevices = Option.none then 1 else 0)) := by
  refine ⟨fun _ => ⟨rfl, ?_⟩, ⟨rfl, rfl, rfl⟩, fun h => ?_⟩
  · exact loadAreas_no_fetch_of_raw_cached hub t1 _ _ (by rw [loadAreas_init])
  · obtain ⟨dc, cts, ad, alc⟩ := st
    rcases h with hnone | ⟨t, hsome, hge⟩
    · obtain rfl : cts = Option.none := hnone
      cases ad <;>
        simp [loadAreasWithDevices, manualAreaGrouping, getAllDevices]
    · obtain rfl : cts = some t := hsome
      have hdec : ¬ (t0 - t < CACHE_TTL) := not_lt.mpr hge
      cases ad <;>
        simp [loadAreasWithDevices, manualAreaGrouping, getAllDevices, hdec]

/-- Witness for C3 (amended) at a concrete hub, times 0 and 1, and the
initial state. -/
theorem c3_amended_cache_read_witness :
    ((1 : ℤ) - 0 < CACHE_TTL ∧
      (loadAreasWithDevices sampleHub false 0 initBotState).2.2 = 1 ∧
      (loadAreasWithDevices sampleHub false 1
         (loadAreasWithDevices sampleHub false 0 initBotState).2.1).2.2 = 0) ∧
    (initBotState.cacheTimestamp = Option.none ∧
      (loadAreasWithDevices sampleHub false 0 initBotState).2.1.cacheTimestamp = some 0 ∧
      (loadAreasWithDevices sampleHub false 0 initBotState).2.2
        = (if initBotState.allDevices = Option.none then 1 else 0)) :=
  ⟨⟨by decide, (c3_amended_cache_read sampleHub initBotState 0 1).1 (by decide)⟩,
   ⟨rfl, (c3_amended_cache_read sampleHub initBotState 0 1).2.2 (Or.inl rfl)⟩⟩

/-! ## Short-name claim theorems -/

/-- Truncation is idempotent on its own output: re-truncating the returned
string gives it back (the 15-character ellipsis form re-truncates to
itself, short names and the placeholder pass through). -/
theorem truncateName_idem (cn : List Char) :
    truncateName (truncateName cn).data = truncateName cn := by
  by_cases h : cn.length > 12
  · have h12 : (cn.take 12).length = 12 := by
      rw [List.length_take]; omega
    have hdata : (truncateName cn).data = cn.take 12 ++ "...".data := by
      unfold truncateName; rw [if_pos h]
    have hlen : (truncateName cn).data.length = 15 := by
      rw [hdata, List.length_append, h12]; rfl
    have htake : (truncateName cn).data.take 12 = cn.take 12 := by
      rw [hdata, List.take_append_of_le_length (by omega), List.take_take]
      simp
    conv_lhs => rw [truncateName]
    rw [if_pos (by rw [hlen]; omega), htake, ← hdata]
  · by_cases he : cn.isEmpty
    · have hdata : truncateName cn = "Устройство" := by
        unfold truncateName; rw [if_neg h, if_pos he]
      rw [hdata]; rfl
    · have hdata : truncateName cn = ⟨cn⟩ := by
        unfold truncateName; rw [if_neg h, if_neg he]
      rw [hdata]
      show truncateName cn = (⟨cn⟩ : String)
      exact hdata

/-- Claim C5 counterexample: deriving from display name `'llampamp'` (group
`'Домик 1'`) yields `'lamp'`, but re-deriving from `'lamp'` removes it as a
stop word and falls back to the placeholder `'Устройство'`, so derivation is
not idempotent. -/
theorem c5_counterexample :
    shortenName "llampamp" "Домик 1" = "lamp" ∧
    shortenName (shortenName "llampamp" "Домик 1") "Домик 1" = "Устройство" ∧
    shortenName (shortenName "llampamp" "Домик 1") "Домик 1"
      ≠ shortenName "llampamp" "Домик 1" := by decide

/-- Claim C5 (amended): short-name derivation is idempotent for every
display name whose derived short name is left unchanged by the cleaning
pipeline (group-label removal, stop-word removal, whitespace
normalization); in general a second derivation can differ, as the
counterexample shows. -/
theorem c5_amended_idempotent (name areaName : String)
    (h : cleanName (shortenName name areaName).data areaName
           = (shortenName name areaName).data) :
    shortenName (shortenName name areaName) areaName = shortenName name areaName := by
  have h1 : shortenName (shortenName name areaName) areaName
      = truncateName (cleanName (shortenName name areaName).data areaName) := rfl
  rw [h1, h]
  have h2 : shortenName name areaName = truncateName (cleanName name.data areaName) := rfl
  rw [h2]
  exact truncateName_idem _

/-- Witness for C5 (amended): `'Кухня'` in group `'Домик 1'` derives to
itself, the cleaning pipeline fixes it, and re-derivation is the
identity. -/
theorem c5_amended_idempotent_witness :
    cleanName (shortenName "Кухня" "Домик 1").data "Домик 1"
      = (shortenName "Кухня" "Домик 1").data ∧
    shortenName (shortenName "Кухня" "Домик 1") "Домик 1"
      = shortenName "Кухня" "Домик 1" :=
  ⟨by decide, c5_amended_idempotent "Кухня" "Домик 1" (by decide)⟩

/-! ## Grouping claim theorem -/

/-- Claim C6: pattern matching is checked in the fixed house order 1→10 and
the first house with a matching pattern wins; a name matching no pattern of
any house is assigned to the `'Общие устройства'` catch-all; and in the
grouped mapping every controllable device of the fetched list belongs to
exactly one bucket. -/
theorem c6_first_match_grouping :
    (∀ (name : String) (k : Nat), k ∈ HOUSE_ORDER →
        housePatternsMatch k (pyLower name.data) = true →
        (∀ j ∈ HOUSE_ORDER, j < k → housePatternsMatch j (pyLower name.data) = false) →
        assignDeviceToHouse name = houseLabel k) ∧
    (∀ name : String,
        (∀ j ∈ HOUSE_ORDER, housePatternsMatch j (pyLower name.data) = false) →
        assignDeviceToHouse name = "Общие устройства") ∧
    (∀ (devices : List RawDevice) (d : RawDevice), d ∈ devices →
        isControllableDevice d.entityId = true →
        ((manualGroupDevices devices).filter (fun p => decide (d ∈ p.2))).length = 1) := by
  have hlist : HOUSE_ORDER = [1, 2, 3, 4, 5, 6, 7, 8, 9, 10] := rfl
  refine ⟨?_, ?_, ?_⟩
  · intro name k hk hmatch hprev
    unfold assignDeviceToHouse
    have hfind : HOUSE_ORDER.find? (fun i => housePatternsMatch i (pyLower name.data))
        = some k := by
      rw [hlist] at hk hprev ⊢
      fin_cases hk <;> simp_all
    simp only [hfind]
  · intro name hall
    have hnone : HOUSE_ORDER.find? (fun i => housePatternsMatch i (pyLower name.data))
        = Option.none :=
      List.find?_eq_none.mpr (fun j hj => by simp [hall j hj])
    unfold assignDeviceToHouse
    simp only [hnone]
  · intro devices d hd hctrl
    have hdc : d ∈ devices.filter (fun x => isControllableDevice x.entityId) :=
      List.mem_filter.mpr ⟨hd, hctrl⟩
    set a := assignDeviceToHouse (deviceFriendly d) with ha
    have hmem : a ∈ housesAll := by
      rw [ha]
      unfold assignDeviceToHouse
      cases hfind : HOUSE_ORDER.find?
          (fun i => housePatternsMatch i (pyLower (deviceFriendly d).data)) with
      | none => simp only [hfind]; decide
      | some i =>
        have hi : i ∈ HOUSE_ORDER := List.mem_of_find?_eq_some hfind
        simp only [hfind]
        show houseLabel i ∈ HOUSE_ORDER.map houseLabel ++ ["Общие устройства"]
        exact List.mem_append_left _ (List.mem_map_of_mem houseLabel hi)
    have hnodup : housesAll.Nodup := by decide
    unfold manualGroupDevices
    rw [List.filter_filter, ← List.countP_eq_length_filter, List.countP_map]
    have hpt : ∀ x : String,
        ((fun p : String × List RawDevice => decide (d ∈ p.2) && !p.2.isEmpty) ∘
          (fun h => (h, (devices.filter (fun y => isControllableDevice y.entityId)).filter
              (fun y => assignDeviceToHouse (deviceFriendly y) == h)))) x
          = (x == a) := by
      intro x
      by_cases hcase : a = x
      · subst hcase
        have hmemf : d ∈ (devices.filter (fun y => isControllableDevice y.entityId)).filter
            (fun y => assignDeviceToHouse (deviceFriendly y) == a) :=
          List.mem_filter.mpr ⟨hdc, by rw [← ha]; exact beq_self_eq_true a⟩
        have hne := List.ne_nil_of_mem hmemf
        have hie : ((devices.filter (fun y => isControllableDevice y.entityId)).filter
            (fun y => assignDeviceToHouse (deviceFriendly y) == a)).isEmpty = false := by
          cases hcl : (devices.filter (fun y => isControllableDevice y.entityId)).filter
              (fun y => assignDeviceToHouse (deviceFriendly y) == a) with
          | nil => exact absurd hcl hne
          | cons y ys => rfl
        simp only [Function.comp]
        rw [hie, decide_eq_true hmemf, beq_self_eq_true]
        rfl
      · have hnm : d ∉ (devices.filter (fun y => isControllableDevice y.entityId)).filter
            (fun y => assignDeviceToHouse (deviceFriendly y) == x) := by
          intro hin
          exact hcase (by rw [ha]; exact eq_of_beq (List.mem_filter.mp hin).2)
        have hbeq : (x == a) = false :=
          beq_eq_false_iff_ne.mpr (fun hxa => hcase hxa.symm)
        simp only [Function.comp]
        rw [hbeq, decide_eq_false hnm]
        rfl
    rw [show ((fun p : String × List RawDevice => decide (d ∈ p.2) && !p.2.isEmpty) ∘
          (fun h => (h, (devices.filter (fun y => isControllableDevice y.entityId)).filter
              (fun y => assignDeviceToHouse (deviceFriendly y) == h))))
        = (fun x => x == a) from funext hpt]
    rw [← List.count_eq_countP]
    exact List.count_eq_one_of_mem hnodup hmem

/-- Witness for C6: `'Домик 3 Lamp'` matches house 3 first and is assigned
to `'Домик 3'`; `'Wi-Fi retro lamp'` matches no house and is assigned to
the catch-all; the one controllable device of a concrete list lies in
exactly one bucket of the grouped mapping. -/
theorem c6_first_match_grouping_witness :
    ((3 : Nat) ∈ HOUSE_ORDER ∧
     housePatternsMatch 3 (pyLower "Домик 3 Lamp".data) = true ∧
     (∀ j ∈ HOUSE_ORDER, j < 3 →
        housePatternsMatch j (pyLower "Домик 3 Lamp".data) = false) ∧
     assignDeviceToHouse "Домик 3 Lamp" = houseLabel 3) ∧
    ((∀ j ∈ HOUSE_ORDER, housePatternsMatch j (pyLower "Wi-Fi retro lamp".data) = false) ∧
     assignDeviceToHouse "Wi-Fi retro lamp" = "Общие устройства") ∧
    ((⟨"light.kitchen", some "Кухня свет", "on"⟩ : RawDevice)
        ∈ [(⟨"light.kitchen", some "Кухня свет", "on"⟩ : RawDevice)] ∧
     isControllableDevice "light.kitchen" = true ∧
     ((manualGroupDevices [⟨"light.kitchen", some "Кухня свет", "on"⟩]).filter
        (fun p =>
          decide ((⟨"light.kitchen", some "Кухня свет", "on"⟩ : RawDevice) ∈ p.2))).length
       = 1) :=
  ⟨⟨by decide, by decide, by decide,
    c6_first_match_grouping.1 "Домик 3 Lamp" 3 (by decide) (by decide) (by decide)⟩,
   ⟨by decide, c6_first_match_grouping.2.1 "Wi-Fi retro lamp" (by decide)⟩,
   ⟨by decide, by decide,
    c6_first_match_grouping.2.2 [⟨"light.kitchen", some "Кухня свет", "on"⟩]
      ⟨"light.kitchen", some "Кухня свет", "on"⟩ (by decide) (by decide)⟩⟩

end HomeBot
